import Mathlib

/-!
Verification of the distributed process-application runner in
`eventsourcing/system/ray.py` (class `RayProcess` and its worker loops).

Each definition below is a shallow embedding of the corresponding Python
method (line numbers refer to `src/eventsourcing/system/ray.py`).  Python
`None` is modelled as `Option.none`, dictionaries as functions into
`Option`, and exceptional control flow as explicit outcome constructors.
-/

/-- A cross-host prompt `RayPrompt(process_name, pipeline_id,
head_notification_id)` as constructed at lines 500-504 and 537-541 of
`ray.py` (the class itself lives in `system/rayhelpers.py`). -/
structure RayPrompt where
  process_name : String
  pipeline_id : Int
  head_notification_id : Option Int
  deriving DecidableEq

namespace RayProcess

/-! ### Puller: `process_prompts`, lines 340-426 -/

/-- Result of the per-upstream body of `process_prompts`:
either the upstream is skipped (`continue`, line 368), or a
`get_notifications(first, last)` remote call is issued (lines 387-390),
or the pass raises.  `type_error` models Python `None + 1` at line 358,
which raises `TypeError` before any comparison with the head happens. -/
inductive FetchPlan
  | type_error
  | skip
  | fetch (first_notification_id : Int) (last_notification_id : Option Int)
  deriving DecidableEq

/-- `RANGE_LIMIT = 10`, line 361. -/
def RANGE_LIMIT : Int := 10

/-- Lines 356-390 of `process_prompts`, for one upstream:
`current_position = positions.get(upstream_name)`;
`first_notification_id = current_position + 1` (raises `TypeError` when the
position is `None`); if the snapshotted head is known and
`current_position >= current_head` the upstream is skipped; if known and
smaller, `last_notification_id = first_notification_id + RANGE_LIMIT - 1`;
if unknown, `last_notification_id = None`. -/
def puller_fetch_plan (current_position : Option Int) (current_head : Option Int) :
    FetchPlan :=
  match current_position with
  | none => FetchPlan.type_error
  | some p =>
    let first_notification_id := p + 1
    match current_head with
    | some h =>
      if p ≥ h then FetchPlan.skip
      else
        FetchPlan.fetch first_notification_id
          (some (first_notification_id + RANGE_LIMIT - 1))
    | none => FetchPlan.fetch first_notification_id none

/-- `_reset_positions`, lines 278-282, applied to the initial empty
`positions` dict: for every followed upstream the in-memory position
becomes `process.get_recorded_position(upstream_name)` (which may be
`None`); other names stay absent. -/
def reset_positions (upstream_names : List String)
    (recorded_position : String → Option Int) : String → Option Int :=
  fun u => if upstream_names.contains u then recorded_position u else none

/-! ### PromptIntake: `prompt`, lines 319-338 -/

/-- `RayProcess.prompt`, lines 319-338.  `heads` is the `self.heads` dict;
the result is the updated dict together with whether
`has_been_prompted.set()` was invoked during the call.  With a non-`None`
`head_notification_id`: an absent key is stored and the event fired; a
present key is overwritten and the event fired only when the new head is
strictly greater.  With a `None` head the event is fired unconditionally
and `heads` is untouched. -/
def prompt (heads : String → Option Int) (process_name : String)
    (head_notification_id : Option Int) : (String → Option Int) × Bool :=
  match head_notification_id with
  | some latest_head =>
    match heads process_name with
    | some old =>
      if latest_head > old then
        (fun n => if n = process_name then some latest_head else heads n, true)
      else
        (heads, false)
    | none =>
      (fun n => if n = process_name then some latest_head else heads n, true)
  | none => (heads, true)

/-- The heads map after a sequence of `prompt` calls, each given as
`(process_name, head_notification_id)`. -/
def prompt_seq (heads : String → Option Int)
    (prompts : List (String × Option Int)) : String → Option Int :=
  prompts.foldl (fun h pr => (prompt h pr.1 pr.2).1) heads

/-! ### EventProcessor: `process_events`, lines 440-514 -/

/-- A new domain event returned by `process_upstream_event`; `notifiable`
models the `__notifiable__` flag read at line 473. -/
structure DomainEvent where
  notifiable : Bool
  deriving DecidableEq

/-- A new event record returned by `process_upstream_event`.
`notification_id` is `some n` exactly when
`isinstance(getattr(record, notification_id_name, None), int)` holds
(lines 480-482), in which case `n` is that integer. -/
structure EventRecord where
  notification_id : Option Int
  deriving DecidableEq

/-- The list-comprehension at lines 477-483 followed by reading `"id"` of
each created notification: per the record-store contract (§6 of the spec)
`create_notification_from_record(record)["id"]` is the record's integer
notification id, so the comprehension yields the notification ids of the
records that carry one, in record order. -/
def notifications_from_records (new_records : List EventRecord) : List Int :=
  new_records.filterMap (fun r => r.notification_id)

/-- The head the spec's sentence prescribes (spec §4.5): the maximum
notification id among the `new_records` that carry an integer notification
id, when any does.  Stated from the spec's words for comparison with
`process_events_prompt`, which is translated from the source. -/
def spec_head_from_records (new_records : List EventRecord) : Option Int :=
  match notifications_from_records new_records with
  | [] => none
  | h :: t => some (t.foldl max h)

/-- The success branch of `process_events`, lines 471-510: filter the
notifiable events; when some exist, build the notifications list from the
records with integer notification ids; the head is the **last** such id
(`notifications[-1]["id"]`, line 486) when the list is non-empty,
otherwise `get_max_notification_id()` (line 498, a DB query, passed in as
`db_max_notification_id`); a `RayPrompt` is then put on the
downstream-prompt queue (line 510).  Returns the pushed prompt, or `none`
when no prompt is pushed. -/
def process_events_prompt (self_name : String) (self_pipeline : Int)
    (new_events : List DomainEvent) (new_records : List EventRecord)
    (db_max_notification_id : Int) : Option RayPrompt :=
  let notifiable_events := new_events.filter (fun e => e.notifiable)
  if notifiable_events.length ≠ 0 then
    let notifications := notifications_from_records new_records
    let head_notification_id :=
      match notifications.getLast? with
      | some h => h
      | none => db_max_notification_id
    some (RayPrompt.mk self_name self_pipeline (some head_notification_id))
  else
    none

/-- The method names defined in `class RayProcess` (`ray.py` lines
147-590), in source order. -/
def method_names : List String :=
  ["__init__", "db_jobs", "init", "do_db_job", "reset_readers",
   "_reset_readers", "reset_positions", "_reset_positions",
   "add_downstream_process", "follow", "enqueue_prompt", "call",
   "get_notification_log_section", "prompt", "process_prompts",
   "get_notifications", "_get_notifications", "process_events",
   "push_prompts", "get_max_notification_id", "stop", "print_timecheck"]

/-- The instance attributes assigned on `self` in `RayProcess.__init__`
(lines 156-194) and `RayProcess.init` (lines 218-248). -/
def instance_attribute_names : List String :=
  ["application_process_class", "infrastructure_class", "daemon",
   "pipeline_id", "poll_interval", "setup_tables", "is_inited",
   "readers_lock", "has_been_prompted", "heads_lock", "heads",
   "positions_lock", "positions", "db_jobs_queue",
   "downstream_prompt_queue", "upstream_prompt_queue",
   "upstream_event_queue", "has_been_stopped", "db_jobs_thread",
   "process_prompts_thread", "process_events_thread",
   "push_prompts_thread", "upstream_logs", "downstream_processes",
   "process"]

/-- Python attribute lookup `self.name` on a `RayProcess` instance
succeeds exactly when `name` is a method of the class or an instance
attribute; otherwise it raises `AttributeError`. -/
def has_attr (name : String) : Bool :=
  method_names.contains name || instance_attribute_names.contains name

/-- Outcome of handling one item popped from the upstream event queue in
`process_events` (lines 452-510). -/
inductive EventItemOutcome
  | prompt_emitted (p : RayPrompt)
  | no_prompt
  | uncaught (exception_type : String)
  deriving DecidableEq

/-- One iteration of the `process_events` body for a popped
`(domain_event, notification_id, upstream_name)` item, lines 453-510.
`db_result` is the outcome of the `process_upstream_event` DB job:
`Except.error` when it raised (any exception, line 467), `Except.ok` with
`(new_events, new_records)` on success.  In the except branch the code
prints and then evaluates `self.reset_processing()` (line 470); the class
defines no such method and no such instance attribute, so the lookup
itself raises `AttributeError`, which nothing in `process_events` catches:
the worker loop is left with an uncaught exception. -/
def process_events_item (self_name : String) (self_pipeline : Int)
    (db_result : Except String (List DomainEvent × List EventRecord))
    (db_max_notification_id : Int) : EventItemOutcome :=
  match db_result with
  | Except.error _ =>
    if has_attr "reset_processing" then
      EventItemOutcome.no_prompt
    else
      EventItemOutcome.uncaught "AttributeError"
  | Except.ok (new_events, new_records) =>
    match process_events_prompt self_name self_pipeline new_events
        new_records db_max_notification_id with
    | some p => EventItemOutcome.prompt_emitted p
    | none => EventItemOutcome.no_prompt

/-! ### How the process application is reached from each worker -/

/-- A call that reaches the process application object: either routed
through the DB job queue (`self.do_db_job(...)`, lines 250-265, executed
by the `db_jobs` worker) or a plain attribute call `self.process.m(...)`
executed on the worker thread that wrote it. -/
inductive ProcessAccess
  | via_db_job (method : String)
  | direct (method : String)
  deriving DecidableEq

/-- The process-application calls made for each fetched notification
inside `process_prompts`, lines 411-417:
`self.process.check_causal_dependencies(upstream_name, ...)` and
`self.process.get_event_from_notification(notification)` are both plain
attribute calls executed on the puller thread; neither is passed to
`do_db_job`. -/
def puller_notification_accesses : List ProcessAccess :=
  [ProcessAccess.direct "check_causal_dependencies",
   ProcessAccess.direct "get_event_from_notification"]

/-- `RayProcess.call`, lines 297-308: the named application method is
looked up and handed to `do_db_job` (line 304). -/
def call_accesses (application_method_name : String) : List ProcessAccess :=
  [ProcessAccess.via_db_job application_method_name]

/-! ### Retry boundaries: the decorator on `call`, lines 297 and 310 -/

/-- Modelled from the spec: the `retry` decorator
(`eventsourcing.domain.model.decorators.retry`, not under `src/`; spec §7)
re-invokes the wrapped callable on `OperationalError` up to `max_attempts`
times with a fixed wait between attempts, re-raising after the last
failure.  `fails_at i` states whether the i-th attempt (1-based) raises an
`OperationalError`; the result is the number of the successful attempt, or
`none` when the attempt budget is exhausted and the error re-raised. -/
def retry_exec (fails_at : Nat → Bool) : Nat → Nat → Option Nat
  | 0, _ => none
  | n + 1, i => if fails_at i then retry_exec fails_at n (i + 1) else some i

/-- `@retry(OperationalError, max_attempts=10, wait=0.1)` on
`RayProcess.call`, line 297: `max_attempts=10`. -/
def call_max_attempts : Nat := 10

/-- `wait=0.1` seconds on the same decorator, in milliseconds. -/
def call_wait_ms : Nat := 100

/-- Executing `RayProcess.call` under its retry decorator. -/
def call_exec (fails_at : Nat → Bool) : Option Nat :=
  retry_exec fails_at call_max_attempts 1

/-- Executing `RayProcess.get_notifications` (lines 428-431): the method
carries no retry decorator, so a single operational failure of the DB job
propagates to the caller. -/
def get_notifications_exec (fails_at : Nat → Bool) : Option Nat :=
  if fails_at 1 then none else some 1

/-- The fetching part of one puller pass (`process_prompts` lines
354-398): the upstreams are visited in order and each gets exactly one
un-retried remote `get_notifications` call (`ray.get(rayid)`, line 392);
an exception from the call propagates out of the `for` loop, abandoning
the rest of the pass.  `fails u i` states whether the i-th attempt of the
fetch for upstream `u` would raise; the result is the list of upstreams
actually fetched and whether the pass was aborted by an exception. -/
def puller_pass_fetches : List String → (String → Nat → Bool) → List String × Bool
  | [], _ => ([], false)
  | u :: rest, fails =>
    if fails u 1 then ([], true)
    else
      let r := puller_pass_fetches rest fails
      (u :: r.1, r.2)

/-! ### Promoter: `push_prompts`, lines 516-554 -/

/-- An item popped from the downstream-prompt queue: the `None` shutdown
sentinel, a `PromptToPull` shell published locally by the process
application (modelled from the spec, §4.6: a "pull" shell that may carry
no head; `application.process` is not under `src/`), or an already-built
`RayPrompt` from `process_events`. -/
inductive PromoterItem
  | sentinel
  | pull_shell (head_notification_id : Option Int)
  | forwarded (p : RayPrompt)
  deriving DecidableEq

/-- Python truthiness of `item.head_notification_id` at line 533: `None`
and `0` are falsy, any other integer truthy. -/
def truthy : Option Int → Bool
  | none => false
  | some v => v != 0

/-- Outcome of one `push_prompts` iteration: the loop breaks, or a prompt
is pushed; `pushed_to` lists the downstreams whose `prompt.remote` was
invoked (in order), `awaited` the futures passed to the final
`ray.get(prompt_response_ids)` (line 554). -/
inductive PromoterStep
  | exited
  | pushed (prompt : RayPrompt) (pushed_to : List String) (awaited : List String)
  deriving DecidableEq

/-- The inner push loop, lines 544-552: one `prompt.remote` per downstream
in `downstream_processes`, appending each future, with an early `break`
when `has_been_stopped` is observed set after a push.  Returns the list of
downstreams pushed to (= the futures accumulated). -/
def push_loop (downstream_names : List String) (stopped : Bool) : List String :=
  match downstream_names with
  | [] => []
  | d :: rest => d :: (if stopped then [] else push_loop rest stopped)

/-- One iteration of the `push_prompts` body for a popped item, lines
519-554.  `stopped` is the value of `has_been_stopped` during the
iteration.  A `None` item or a set stop flag breaks the loop.  For a
`PromptToPull` shell, a truthy `head_notification_id` is used as the head,
otherwise `get_max_notification_id()` (passed in as
`db_max_notification_id`) resolves it, and a fresh `RayPrompt` is built
(lines 532-541); any other item is forwarded as is (line 543).  The prompt
goes to every downstream and all returned futures are awaited before the
next item is taken. -/
def push_prompts_item (self_name : String) (self_pipeline : Int)
    (db_max_notification_id : Int) (downstream_names : List String)
    (stopped : Bool) (item : PromoterItem) : PromoterStep :=
  match item with
  | PromoterItem.sentinel => PromoterStep.exited
  | PromoterItem.pull_shell h =>
    if stopped then PromoterStep.exited
    else
      let head_notification_id :=
        match h with
        | some v => if v != 0 then v else db_max_notification_id
        | none => db_max_notification_id
      let pr := RayPrompt.mk self_name self_pipeline (some head_notification_id)
      let futures := push_loop downstream_names stopped
      PromoterStep.pushed pr futures futures
  | PromoterItem.forwarded p =>
    if stopped then PromoterStep.exited
    else
      let futures := push_loop downstream_names stopped
      PromoterStep.pushed p futures futures

/-! ### Shutdown: `stop`, lines 564-578, and the workers' blocking waits -/

/-- The blocking primitive a worker loop is parked on while idle. -/
inductive WaitPoint
  | on_queue (queue_name : String)
  | on_event (event_name : String)
  deriving DecidableEq

/-- The four worker threads started in `__init__`, lines 180-194. -/
inductive Worker
  | db_worker
  | puller
  | event_processor
  | promoter
  deriving DecidableEq

/-- The blocking wait at the head of each worker loop:
`db_jobs` blocks on `db_jobs_queue.get(timeout=1)` (line 200),
`process_prompts` on `has_been_prompted.wait()` (line 344),
`process_events` on `upstream_event_queue.get()` (line 443),
`push_prompts` on `downstream_prompt_queue.get()` (line 519). -/
def worker_wait : Worker → WaitPoint
  | Worker.db_worker => WaitPoint.on_queue "db_jobs_queue"
  | Worker.puller => WaitPoint.on_event "has_been_prompted"
  | Worker.event_processor => WaitPoint.on_queue "upstream_event_queue"
  | Worker.promoter => WaitPoint.on_queue "downstream_prompt_queue"

/-- What `stop()` does, lines 564-578. -/
structure StopEffects where
  sentinel_queues : List String
  events_set : List String
  unsubscribed : Bool
  deriving DecidableEq

/-- `RayProcess.stop`, lines 564-578: sets `has_been_stopped`, puts a
`None` sentinel on each of the four queues, and unsubscribes the local
prompt handler.  No other `threading.Event` is set — in particular
`has_been_prompted` is not. -/
def stop_effects : StopEffects :=
  StopEffects.mk
    ["upstream_prompt_queue", "upstream_event_queue",
     "downstream_prompt_queue", "db_jobs_queue"]
    ["has_been_stopped"]
    true

/-- The queues some worker loop actually consumes with `get`: lines 200,
443 and 519.  No loop ever reads `upstream_prompt_queue`. -/
def consumed_queues : List String :=
  ["db_jobs_queue", "upstream_event_queue", "downstream_prompt_queue"]

/-- Whether the wait a worker is parked on is released by `stop()`: a
queue wait is released by a sentinel put on that queue, an event wait by
that event being set. -/
def woken_by_stop (w : Worker) : Bool :=
  match worker_wait w with
  | WaitPoint.on_queue q => stop_effects.sentinel_queues.contains q
  | WaitPoint.on_event e => stop_effects.events_set.contains e

/-! ### NotificationLogView: `get_notifications`, lines 428-438 -/

/-- Modelled from the spec: the record store holds contiguous
notifications with ids `1..count` (spec §3), and
`record_manager.get_notifications(start, stop)` (the record manager is
outside `src/`; spec §6) returns the half-open slice `[start, stop)` of
the 0-based record sequence — the notification with id `i` sits at index
`i - 1` — with a `nil` stop unbounded.  Notifications are represented by
their ids. -/
def record_manager_get_notifications (count : Nat) (start : Int)
    (stop : Option Int) : List Int :=
  ((List.range count).map (fun k : Nat => (k : Int) + 1)).filter
    (fun i =>
      decide (start ≤ i - 1) &&
        (match stop with
         | none => true
         | some s => decide (i - 1 < s)))

/-- `RayProcess._get_notifications`, lines 433-438, reached from the host
operation `get_notifications` via the DB job queue (lines 428-431):
`start = first_notification_id - 1`, `stop = last_notification_id`, and
the record manager's result is fully materialized with `list(...)`. -/
def ray_get_notifications (count : Nat) (first_notification_id : Int)
    (last_notification_id : Option Int) : List Int :=
  record_manager_get_notifications count (first_notification_id - 1)
    last_notification_id

end RayProcess

open RayProcess

/-! ### Helper lemmas -/

/-- With the stop flag clear, the push loop reaches every downstream. -/
theorem push_loop_all (l : List String) : push_loop l false = l := by
  induction l with
  | nil => rfl
  | cons d rest ih => simp [push_loop, ih]

/-- One `prompt` call never decreases any stored head. -/
theorem prompt_apply_mono (heads : String → Option Int) (pn : String)
    (hd : Option Int) (s : String) (old : Int) (h : heads s = some old) :
    ∃ v, (prompt heads pn hd).1 s = some v ∧ old ≤ v := by
  match hd with
  | none => exact ⟨old, h, le_refl old⟩
  | some lh =>
    cases hpn : heads pn with
    | some o =>
      by_cases hgt : lh > o
      · simp only [prompt, hpn, if_pos hgt]
        by_cases hs : s = pn
        · subst hs
          rw [h] at hpn
          injection hpn with ho
          subst ho
          exact ⟨lh, by simp, le_of_lt hgt⟩
        · exact ⟨old, by simp [hs, h], le_refl old⟩
      · simp only [prompt, hpn, if_neg hgt]
        exact ⟨old, h, le_refl old⟩
    | none =>
      by_cases hs : s = pn
      · subst hs
        rw [h] at hpn
        cases hpn
      · simp only [prompt, hpn]
        exact ⟨old, by simp [hs, h], le_refl old⟩

/-- A sequence of `prompt` calls never decreases any stored head. -/
theorem prompt_seq_mono (prompts : List (String × Option Int)) :
    ∀ (heads : String → Option Int) (s : String) (old : Int),
      heads s = some old →
      ∃ v, prompt_seq heads prompts s = some v ∧ old ≤ v := by
  induction prompts with
  | nil =>
    intro heads s old h
    exact ⟨old, h, le_refl old⟩
  | cons pr rest ih =>
    intro heads s old h
    obtain ⟨v, hv, hle⟩ := prompt_apply_mono heads pr.1 pr.2 s old h
    obtain ⟨w, hw, hle2⟩ := ih (prompt heads pr.1 pr.2).1 s v hv
    exact ⟨w, by simpa [prompt_seq] using hw, le_trans hle hle2⟩

/-- Exhausted retries re-raise. -/
theorem retry_exec_all_fail (fails_at : Nat → Bool)
    (hf : ∀ i, fails_at i = true) : ∀ n i, retry_exec fails_at n i = none := by
  intro n
  induction n with
  | zero => intro i; rfl
  | succ m ih => intro i; simp [retry_exec, hf i, ih]

/-- A retry budget of `n + 1` attempts survives `n` leading failures. -/
theorem retry_exec_first_success (fails_at : Nat → Bool) :
    ∀ (n i : Nat), (∀ j, j < n → fails_at (i + j) = true) →
      fails_at (i + n) = false →
      retry_exec fails_at (n + 1) i = some (i + n) := by
  intro n
  induction n with
  | zero =>
    intro i _ hok
    simp only [Nat.add_zero] at hok
    simp [retry_exec, hok]
  | succ m ih =>
    intro i hfail hok
    have h0 : fails_at i = true := by
      have := hfail 0 (Nat.succ_pos m)
      simpa using this
    have hrest : retry_exec fails_at (m + 1) (i + 1) = some (i + 1 + m) := by
      refine ih (i + 1) (fun j hj => ?_) ?_
      · have := hfail (j + 1) (Nat.succ_lt_succ hj)
        rw [show i + 1 + j = i + (j + 1) by omega]
        exact this
      · rw [show i + 1 + m = i + (m + 1) by omega]
        exact hok
    have : retry_exec fails_at (m + 1 + 1) i = retry_exec fails_at (m + 1) (i + 1) := by
      simp [retry_exec, h0]
    rw [this, hrest]
    congr 1
    omega

/-- The left fold of `max` over an ascending chain is its last element. -/
theorem foldl_max_sorted :
    ∀ (t : List Int) (x : Int), List.Chain' (· ≤ ·) (x :: t) →
      (x :: t).getLast? = some (t.foldl max x) := by
  intro t
  induction t with
  | nil => intro x _; rfl
  | cons y t ih =>
    intro x hchain
    rw [List.chain'_cons] at hchain
    have h1 : (x :: y :: t).getLast? = (y :: t).getLast? := by
      simp [List.getLast?_cons_cons]
    rw [h1, ih y hchain.2]
    congr 1
    simp [List.foldl_cons, max_eq_right hchain.1]

/-- Membership in an unbounded record-manager slice. -/
theorem mem_rm_none (count : Nat) (start i : Int) :
    i ∈ record_manager_get_notifications count start none
      ↔ 1 ≤ i ∧ i ≤ (count : Int) ∧ start ≤ i - 1 := by
  rw [record_manager_get_notifications, List.mem_filter]
  constructor
  · rintro ⟨hmem, hpred⟩
    rw [List.mem_map] at hmem
    obtain ⟨k, hk, hki⟩ := hmem
    rw [List.mem_range] at hk
    rw [Bool.and_eq_true] at hpred
    exact ⟨by omega, by omega, of_decide_eq_true hpred.1⟩
  · rintro ⟨h1, h2, h3⟩
    refine ⟨List.mem_map.mpr ⟨(i - 1).toNat,
      List.mem_range.mpr (by omega), by omega⟩, ?_⟩
    rw [Bool.and_eq_true]
    exact ⟨decide_eq_true h3, rfl⟩

/-- Membership in a bounded record-manager slice. -/
theorem mem_rm_some (count : Nat) (start s i : Int) :
    i ∈ record_manager_get_notifications count start (some s)
      ↔ 1 ≤ i ∧ i ≤ (count : Int) ∧ start ≤ i - 1 ∧ i - 1 < s := by
  rw [record_manager_get_notifications, List.mem_filter]
  constructor
  · rintro ⟨hmem, hpred⟩
    rw [List.mem_map] at hmem
    obtain ⟨k, hk, hki⟩ := hmem
    rw [List.mem_range] at hk
    rw [Bool.and_eq_true] at hpred
    have hp2 : i - 1 < s := of_decide_eq_true hpred.2
    exact ⟨by omega, by omega, of_decide_eq_true hpred.1, hp2⟩
  · rintro ⟨h1, h2, h3, h4⟩
    refine ⟨List.mem_map.mpr ⟨(i - 1).toNat,
      List.mem_range.mpr (by omega), by omega⟩, ?_⟩
    rw [Bool.and_eq_true]
    exact ⟨decide_eq_true h3, decide_eq_true h4⟩

/-! ### Claim theorems -/

/-- C1: when the `process_upstream_event` DB job raises, the except branch
of `process_events` (lines 467-470) does not perform the claimed reset:
`RayProcess` defines no `reset_processing` method or attribute, so the
handler itself raises `AttributeError`, which escapes the worker loop
uncaught — the upstream event queue is not flushed and neither positions
nor reader state are re-derived. -/
theorem C1_exception_path_raises_attribute_error :
    (∀ (self_name : String) (self_pipeline db_max : Int)
       (exception_message : String),
       process_events_item self_name self_pipeline
         (Except.error exception_message) db_max
         = EventItemOutcome.uncaught "AttributeError")
    ∧ has_attr "reset_processing" = false := by
  constructor
  · intro self_name self_pipeline db_max exception_message
    have h : has_attr "reset_processing" = false := by decide
    simp [process_events_item, h]
  · decide

/-- C2: in a puller pass, for an upstream whose in-memory position is the
integer `p`, the request starts at `first = p + 1`; with a known head `h`
the upstream is skipped when `p ≥ h` (no `get_notifications` call), and
fetched with `last = first + RANGE_LIMIT - 1` (`RANGE_LIMIT = 10`) when
`p < h`; with an unknown head the fetch is unbounded (`last = nil`). -/
theorem C2_puller_fetch_range (p h : Int) :
    (p ≥ h → puller_fetch_plan (some p) (some h) = FetchPlan.skip)
    ∧ (p < h → puller_fetch_plan (some p) (some h)
        = FetchPlan.fetch (p + 1) (some ((p + 1) + RANGE_LIMIT - 1)))
    ∧ RANGE_LIMIT = 10
    ∧ puller_fetch_plan (some p) none = FetchPlan.fetch (p + 1) none := by
  refine ⟨fun hp => ?_, fun hp => ?_, rfl, rfl⟩
  · simp only [puller_fetch_plan]
    rw [if_pos hp]
  · simp only [puller_fetch_plan]
    rw [if_neg (not_le.mpr hp)]

/-- Witness for C2 at concrete positions and heads. -/
theorem C2_puller_fetch_range_witness :
    puller_fetch_plan (some 7) (some 5) = FetchPlan.skip
    ∧ puller_fetch_plan (some 3) (some 5)
        = FetchPlan.fetch (3 + 1) (some ((3 + 1) + RANGE_LIMIT - 1)) :=
  ⟨(C2_puller_fetch_range 7 5).1 (by norm_num),
   (C2_puller_fetch_range 3 5).2.1 (by norm_num)⟩

/-- C4 counterexample: one notifiable event, two new records carrying
notification ids `2` then `1`.  The emitted prompt's head is the last id,
`1`, while the maximum integer notification id among the records is `2`:
the claim "head equals the maximum notification id" fails. -/
theorem C4_counterexample :
    process_events_prompt "a" 0 [DomainEvent.mk true]
        [EventRecord.mk (some 2), EventRecord.mk (some 1)] 99
      = some (RayPrompt.mk "a" 0 (some 1))
    ∧ spec_head_from_records [EventRecord.mk (some 2), EventRecord.mk (some 1)]
        = some 2
    ∧ some (1 : Int) ≠ some (2 : Int) := by decide

/-- C5 counterexample: the per-notification call
`check_causal_dependencies` made by the puller (lines 411-415) is a direct
attribute call on the process application from the puller thread, and no
DB-job-routed call of it occurs there — refuting "executed on the
DBWorker" and "the process application is never invoked directly from the
puller". -/
theorem C5_counterexample :
    ProcessAccess.direct "check_causal_dependencies"
        ∈ puller_notification_accesses
    ∧ ProcessAccess.via_db_job "check_causal_dependencies"
        ∉ puller_notification_accesses := by decide

/-- C8 counterexample: the puller thread parks on
`has_been_prompted.wait()` (line 344), and `stop()` neither sets that
event nor can its sentinel reach the puller (nothing consumes
`upstream_prompt_queue`), so the puller is not woken by `stop()` —
refuting "each of the four workers observes shutdown and exits" and "no
worker remains blocked forever on a wait". -/
theorem C8_counterexample : woken_by_stop Worker.puller = false := by decide

/-- C8 amended: `stop()` sets `has_been_stopped`, puts a sentinel on each
of the four queues, and unsubscribes the local prompt handler; the
DBWorker, EventProcessor and Promoter block on queues that receive a
sentinel and so observe shutdown, but the Puller blocks on the
`has_been_prompted` event, which `stop()` does not set, and the sentinel
put on `upstream_prompt_queue` is never consumed by any worker — so a
puller parked on its wait is not woken by `stop()`. -/
theorem C8_amended_stop_wakeup :
    stop_effects.sentinel_queues
      = ["upstream_prompt_queue", "upstream_event_queue",
         "downstream_prompt_queue", "db_jobs_queue"]
    ∧ stop_effects.events_set = ["has_been_stopped"]
    ∧ stop_effects.unsubscribed = true
    ∧ woken_by_stop Worker.db_worker = true
    ∧ woken_by_stop Worker.event_processor = true
    ∧ woken_by_stop Worker.promoter = true
    ∧ woken_by_stop Worker.puller = false
    ∧ worker_wait Worker.puller = WaitPoint.on_event "has_been_prompted"
    ∧ consumed_queues.contains "upstream_prompt_queue" = false := by decide

/-- C10: when `positions[u]` is `nil` — exactly what `reset_positions`
leaves for a followed upstream whose recorded position is `nil`, e.g. on a
fresh start — the per-upstream puller body hits `None + 1` (line 358) and
raises `TypeError`; in particular it does not fall back to any fetch from
the beginning of the upstream log. -/
theorem C10_nil_position_raises (upstream_names : List String)
    (recorded_position : String → Option Int) (u : String) (h : Option Int)
    (hu : upstream_names.contains u = true)
    (hr : recorded_position u = none) :
    puller_fetch_plan (reset_positions upstream_names recorded_position u) h
        = FetchPlan.type_error
    ∧ ∀ f l, puller_fetch_plan
          (reset_positions upstream_names recorded_position u) h
        ≠ FetchPlan.fetch f l := by
  have hpos : reset_positions upstream_names recorded_position u = none := by
    simp only [reset_positions]
    rw [if_pos hu, hr]
  rw [hpos]
  exact ⟨rfl, fun f l hcontra => FetchPlan.noConfusion hcontra⟩

/-- Witness for C10: a single followed upstream with no recorded
position. -/
theorem C10_nil_position_raises_witness :
    puller_fetch_plan (reset_positions ["a"] (fun _ => none) "a") (some 5)
      = FetchPlan.type_error :=
  (C10_nil_position_raises ["a"] (fun _ => none) "a" (some 5)
    (by decide) rfl).1

/-- C3: for a `prompt` with a non-nil head, `heads[sender]` becomes the
maximum of its previous value (if any) and the prompted head — so stored
heads never decrease across any sequence of prompt calls —
`has_been_prompted` is fired exactly when the stored value changed or was
previously absent; and a nil-head prompt fires the event unconditionally
without touching `heads`. -/
theorem C3_prompt_head_monotone :
    (∀ (heads : String → Option Int) (s : String) (lh : Int),
       (prompt heads s (some lh)).1 s
         = some (match heads s with | some old => max old lh | none => lh))
    ∧ (∀ (heads : String → Option Int) (s : String) (lh : Int),
       ((prompt heads s (some lh)).2 = true
         ↔ heads s = none ∨ ∃ old, heads s = some old ∧ old < lh))
    ∧ (∀ (heads : String → Option Int) (s : String),
       (prompt heads s none).1 = heads ∧ (prompt heads s none).2 = true)
    ∧ (∀ (heads : String → Option Int) (prompts : List (String × Option Int))
         (s : String) (old : Int), heads s = some old →
       ∃ v, prompt_seq heads prompts s = some v ∧ old ≤ v) := by
  refine ⟨?_, ?_, ?_, ?_⟩
  · intro heads s lh
    cases h : heads s with
    | none => simp [prompt, h]
    | some old =>
      by_cases hgt : lh > old
      · simp only [prompt, h, if_pos hgt]
        simp [max_eq_right (le_of_lt hgt)]
      · simp only [prompt, h, if_neg hgt]
        rw [max_eq_left (not_lt.mp hgt)]
  · intro heads s lh
    cases h : heads s with
    | none => simp [prompt, h]
    | some old =>
      by_cases hgt : lh > old
      · simp only [prompt, h, if_pos hgt]
        simp only [true_iff]
        exact Or.inr ⟨old, rfl, hgt⟩
      · simp only [prompt, h, if_neg hgt]
        constructor
        · intro hfalse
          cases hfalse
        · rintro (hnone | ⟨old2, hold2, hlt⟩)
          · cases hnone
          · injection hold2 with ho
            subst ho
            exact absurd hlt hgt
  · intro heads s
    exact ⟨rfl, rfl⟩
  · intro heads prompts s old h
    exact prompt_seq_mono prompts heads s old h

/-- Witness for C3: starting from a stored head `3`, the sequence of
prompts with heads `5` then `1` leaves the stored head at a value ≥ 3. -/
theorem C3_prompt_head_monotone_witness :
    ∃ v, prompt_seq (fun _ => some 3) [("a", some 5), ("a", some 1)] "a"
        = some v ∧ 3 ≤ v :=
  C3_prompt_head_monotone.2.2.2 (fun _ => some 3)
    [("a", some 5), ("a", some 1)] "a" 3 rfl

/-- C4 amended: after a successful transaction with at least one
notifiable event, the head of the emitted prompt is the notification id of
the **last** new record carrying an integer id (which equals the claimed
maximum whenever the records' notification ids are in ascending order),
and only when no record carries an integer id is the head obtained from
the database max-notification-id query; the prompt carries the process
name and pipeline id, and nothing is emitted without notifiable events. -/
theorem C4_amended_head_is_last_record_id (self_name : String)
    (self_pipeline db_max : Int) (new_events : List DomainEvent)
    (new_records : List EventRecord) :
    ((new_events.filter (fun e => e.notifiable)).length ≠ 0 →
       process_events_prompt self_name self_pipeline new_events new_records
           db_max
         = some (RayPrompt.mk self_name self_pipeline
             (some (match (notifications_from_records new_records).getLast? with
                    | some hd => hd
                    | none => db_max))))
    ∧ ((new_events.filter (fun e => e.notifiable)).length = 0 →
       process_events_prompt self_name self_pipeline new_events new_records
           db_max = none)
    ∧ (List.Chain' (· ≤ ·) (notifications_from_records new_records) →
       ∀ hd, (notifications_from_records new_records).getLast? = some hd →
         spec_head_from_records new_records = some hd) := by
  refine ⟨fun hne => ?_, fun heq => ?_, fun hchain hd hlast => ?_⟩
  · simp [process_events_prompt, hne]
  · simp [process_events_prompt, heq]
  · cases hn : notifications_from_records new_records with
    | nil => rw [hn] at hlast; cases hlast
    | cons x t =>
      rw [hn] at hlast hchain
      have := foldl_max_sorted t x hchain
      rw [hlast] at this
      injection this with hv
      simp [spec_head_from_records, hn, hv]

/-- Witness for C4 amended, at the records of the counterexample. -/
theorem C4_amended_head_is_last_record_id_witness :
    process_events_prompt "a" 0 [DomainEvent.mk true]
        [EventRecord.mk (some 2), EventRecord.mk (some 1)] 99
      = some (RayPrompt.mk "a" 0
          (some (match (notifications_from_records
                   [EventRecord.mk (some 2), EventRecord.mk (some 1)]).getLast? with
                 | some hd => hd
                 | none => 99))) :=
  (C4_amended_head_is_last_record_id "a" 0 99 [DomainEvent.mk true]
    [EventRecord.mk (some 2), EventRecord.mk (some 1)]).1 (by decide)

/-- C5 amended: for each fetched notification the puller invokes
`check_causal_dependencies` and `get_event_from_notification` directly on
the process application, on the puller thread; neither goes through the DB
job queue.  By contrast `call` routes its application method through
`do_db_job`. -/
theorem C5_amended_puller_accesses_process_directly :
    puller_notification_accesses
      = [ProcessAccess.direct "check_causal_dependencies",
         ProcessAccess.direct "get_event_from_notification"]
    ∧ (∀ m, call_accesses m = [ProcessAccess.via_db_job m])
    ∧ (∀ a ∈ puller_notification_accesses, ∀ m,
        a ≠ ProcessAccess.via_db_job m) := by
  refine ⟨rfl, fun m => rfl, ?_⟩
  intro a ha m
  simp only [puller_notification_accesses, List.mem_cons,
    List.not_mem_nil, or_false] at ha
  rcases ha with h | h <;> subst h <;>
    exact fun hEq => ProcessAccess.noConfusion hEq

/-- Witness for C5 amended at the causal-dependency check. -/
theorem C5_amended_puller_accesses_process_directly_witness :
    ProcessAccess.direct "check_causal_dependencies"
      ≠ ProcessAccess.via_db_job "check_causal_dependencies" :=
  C5_amended_puller_accesses_process_directly.2.2
    (ProcessAccess.direct "check_causal_dependencies") (by decide)
    "check_causal_dependencies"

/-- C6 counterexample: a transient operational error that fails only the
first attempt.  `call`'s retry decorator survives it (success on attempt
2), but the host's `get_notifications` method has no retry and fails
outright, and the puller pass over upstreams `["a", "b"]` aborts with
nothing fetched — `"b"` does not continue — refuting the claimed bounded
retry at the `get_notifications` boundary and the claim that other
upstreams in the pass continue. -/
theorem C6_counterexample :
    get_notifications_exec (fun i => i == 1) = none
    ∧ retry_exec (fun i => i == 1) call_max_attempts 1 = some 2
    ∧ puller_pass_fetches ["a", "b"] (fun _ i => i == 1) = ([], true) := by
  decide

/-- C6 amended: the bounded retry — `max_attempts=10`, `wait=0.1` s — is
applied by the decorator on `call` (which survives up to nine leading
operational failures and re-raises after ten); the host's
`get_notifications` method and the puller's per-upstream fetch carry no
retry, so a single operational failure propagates, and a failure on one
upstream aborts the whole pass before any later upstream is fetched. -/
theorem C6_amended_retry_only_on_call :
    (∀ fails_at : Nat → Bool, (∀ j, j < 9 → fails_at (1 + j) = true) →
       fails_at 10 = false → call_exec fails_at = some 10)
    ∧ (∀ fails_at : Nat → Bool, (∀ i, fails_at i = true) →
       call_exec fails_at = none)
    ∧ call_max_attempts = 10
    ∧ call_wait_ms = 100
    ∧ (∀ fails_at : Nat → Bool, fails_at 1 = true →
       get_notifications_exec fails_at = none)
    ∧ (∀ (u : String) (rest : List String) (fails : String → Nat → Bool),
       fails u 1 = true → puller_pass_fetches (u :: rest) fails = ([], true))
    ∧ (∀ (u : String) (rest : List String) (fails : String → Nat → Bool),
       fails u 1 = false →
         puller_pass_fetches (u :: rest) fails
           = (u :: (puller_pass_fetches rest fails).1,
              (puller_pass_fetches rest fails).2)) := by
  refine ⟨?_, ?_, rfl, rfl, ?_, ?_, ?_⟩
  · intro fails_at hfail hok
    have h := retry_exec_first_success fails_at 9 1 hfail (by simpa using hok)
    simpa [call_exec, call_max_attempts] using h
  · intro fails_at hf
    exact retry_exec_all_fail fails_at hf call_max_attempts 1
  · intro fails_at h1
    simp [get_notifications_exec, h1]
  · intro u rest fails h1
    simp [puller_pass_fetches, h1]
  · intro u rest fails h1
    simp [puller_pass_fetches, h1]

/-- Witness for C6 amended: an error failing attempts 1-9 only is
survived by `call`; a first-attempt failure on upstream `"a"` aborts the
pass before `"b"`. -/
theorem C6_amended_retry_only_on_call_witness :
    call_exec (fun i => decide (i ≤ 9)) = some 10
    ∧ puller_pass_fetches ["a", "b"] (fun _ i => i == 1) = ([], true) :=
  ⟨C6_amended_retry_only_on_call.1 (fun i => decide (i ≤ 9))
    (fun j hj => by simp; omega) (by decide),
   C6_amended_retry_only_on_call.2.2.2.2.2.1 "a" ["b"]
    (fun _ i => i == 1) rfl⟩

/-- C7: with the stop flag clear, a popped `PromptToPull` shell with no
head has its head resolved to the database max notification id before
forwarding; the resulting prompt — like a forwarded `RayPrompt` — is
pushed to every downstream handle, and all returned futures are awaited
before the next item is taken (`awaited` equals the pushed futures). -/
theorem C7_push_prompts_forwarding (self_name : String)
    (self_pipeline db_max : Int) (downstream_names : List String)
    (p : RayPrompt) :
    (push_prompts_item self_name self_pipeline db_max downstream_names false
        (PromoterItem.pull_shell none)
      = PromoterStep.pushed (RayPrompt.mk self_name self_pipeline (some db_max))
          downstream_names downstream_names)
    ∧ (∀ v : Int, v ≠ 0 →
       push_prompts_item self_name self_pipeline db_max downstream_names false
           (PromoterItem.pull_shell (some v))
         = PromoterStep.pushed (RayPrompt.mk self_name self_pipeline (some v))
             downstream_names downstream_names)
    ∧ (push_prompts_item self_name self_pipeline db_max downstream_names false
        (PromoterItem.forwarded p)
      = PromoterStep.pushed p downstream_names downstream_names)
    ∧ (push_prompts_item self_name self_pipeline db_max downstream_names false
        PromoterItem.sentinel = PromoterStep.exited) := by
  refine ⟨?_, fun v hv => ?_, ?_, rfl⟩
  · simp [push_prompts_item, push_loop_all]
  · have hb : (v != 0) = true := by simpa using hv
    simp [push_prompts_item, hb, push_loop_all]
  · simp [push_prompts_item, push_loop_all]

/-- Witness for C7 at a shell carrying head 7 and two downstreams. -/
theorem C7_push_prompts_forwarding_witness :
    push_prompts_item "a" 0 42 ["x", "y"] false
        (PromoterItem.pull_shell (some 7))
      = PromoterStep.pushed (RayPrompt.mk "a" 0 (some 7)) ["x", "y"]
          ["x", "y"] :=
  (C7_push_prompts_forwarding "a" 0 42 ["x", "y"]
    (RayPrompt.mk "a" 0 none)).2.1 7 (by decide)

/-- C9: the host operation `get_notifications(first, last)` returns
exactly the materialized result of
`record_manager.get_notifications(first - 1, last)`; over a store with
contiguous ids `1..count` the half-open index translation makes the host
return precisely the notifications with `first ≤ id ≤ last` (unbounded
above when `last` is nil). -/
theorem C9_get_notifications_translation :
    (∀ (count : Nat) (first : Int) (last : Option Int),
       ray_get_notifications count first last
         = record_manager_get_notifications count (first - 1) last)
    ∧ (∀ (count : Nat) (first l i : Int),
       i ∈ ray_get_notifications count first (some l)
         ↔ first ≤ i ∧ i ≤ l ∧ 1 ≤ i ∧ i ≤ (count : Int))
    ∧ (∀ (count : Nat) (first i : Int),
       i ∈ ray_get_notifications count first none
         ↔ first ≤ i ∧ 1 ≤ i ∧ i ≤ (count : Int)) := by
  refine ⟨fun count first last => rfl, ?_, ?_⟩
  · intro count first l i
    rw [ray_get_notifications, mem_rm_some]
    constructor
    · rintro ⟨h1, h2, h3, h4⟩
      exact ⟨by omega, by omega, h1, h2⟩
    · rintro ⟨h1, h2, h3, h4⟩
      exact ⟨h3, h4, by omega, by omega⟩
  · intro count first i
    rw [ray_get_notifications, mem_rm_none]
    constructor
    · rintro ⟨h1, h2, h3⟩
      exact ⟨by omega, h1, h2⟩
    · rintro ⟨h1, h2, h3⟩
      exact ⟨h2, h3, by omega⟩
